import Mathlib

/-!
Verification of the topic-evolution visualization core (`app.js`):
the dataset loader/validator (`loadTopicData`) and the series/annotation
builders (`createChartTraces`, `createDynamicAnnotations`), embedded
shallowly in Lean.  The loader is modelled over a JSON-like value type
(the result of parsing the fetched resource); the builders are modelled
over the structured dataset shape that a validated resource has.
-/

namespace TopicEvolution

/-- JSON-like values, the parsed structured content handed to the
validator.  Numbers are restricted to integers (all data in scope is
integral). -/
inductive JValue where
  | jnull : JValue
  | jbool : Bool → JValue
  | jnum : Int → JValue
  | jstr : String → JValue
  | jarr : List JValue → JValue
  | jobj : List (String × JValue) → JValue

/-- JavaScript truthiness of a value (`!v` is `!truthy v`).  Arrays and
objects are always truthy; `0`, `""`, `null`, `false` are falsy. -/
def JValue.truthy : JValue → Bool
  | .jnull => false
  | .jbool b => b
  | .jnum n => n != 0
  | .jstr s => s != ""
  | .jarr _ => true
  | .jobj _ => true

/-- Property access `v[k]`: defined own fields of objects; everything
else yields `undefined`, modelled as `none`. -/
def JValue.getField : JValue → String → Option JValue
  | .jobj fields, k => fields.lookup k
  | _, _ => none

/-- Truthiness of `data.k`: an absent field is `undefined`, hence falsy. -/
def truthyField (v : JValue) (k : String) : Bool :=
  match v.getField k with
  | none => false
  | some x => x.truthy

/-- `Array.isArray`. -/
def JValue.isArray : JValue → Bool
  | .jarr _ => true
  | _ => false

/-- `Object.entries(v)` for the truthy values it can be reached with:
own enumerable string-keyed entries.  Objects give their fields in
insertion order, arrays their indexed elements, strings their indexed
characters, and other primitives have no own enumerable properties. -/
def jsEntries : JValue → List (String × JValue)
  | .jobj fields => fields
  | .jarr xs => xs.enum.map (fun p => (toString p.1, p.2))
  | .jstr s => s.toList.enum.map (fun p => (toString p.1, JValue.jstr p.2.toString))
  | _ => []

/-- `v.length` of the years value once it is known to be an array. -/
def arrayLength : JValue → Nat
  | .jarr xs => xs.length
  | _ => 0

/-- Validation failures raised inside `loadTopicData` (the two `throw`
sites of the validation section; transport/parse failures happen before
the value exists and are outside this model). -/
inductive LoadError where
  | schemaError : LoadError
  | consistencyError : String → LoadError
deriving DecidableEq

/-- The consistency test of the loop body:
`!Array.isArray(values) || values.length !== expectedLength`. -/
def categoryBad (expectedLength : Nat) (values : JValue) : Bool :=
  match values with
  | .jarr xs => xs.length != expectedLength
  | _ => true

/-- The validation section of `loadTopicData` (`app.js` 115-138):
first the schema check
`!data.years || !data.categories || !Array.isArray(data.years)`,
then the per-category consistency loop over
`Object.entries(data.categories)`, which throws for the first offending
category; on success the raw data itself is returned. -/
def loadTopicData (data : JValue) : Except LoadError JValue :=
  if !(truthyField data "years") || !(truthyField data "categories")
      || !(JValue.isArray ((data.getField "years").getD JValue.jnull)) then
    Except.error LoadError.schemaError
  else
    let expectedLength := arrayLength ((data.getField "years").getD JValue.jnull)
    match (jsEntries ((data.getField "categories").getD JValue.jnull)).find?
        (fun p => categoryBad expectedLength p.2) with
    | some p => Except.error (LoadError.consistencyError p.1)
    | none => Except.ok data

/-- The pieces of `AppState` written by `loadTopicData`. -/
structure LoaderState where
  data : Option JValue
  isLoading : Bool
  error : Option LoadError

/-- State effect of `loadTopicData` (`app.js` 128-146): on success all
three fields are written and the data returned; in the `catch` branch
`AppState.data` is left untouched and `null` is returned. -/
def runLoad (input : JValue) (s : LoaderState) : LoaderState × Option JValue :=
  match loadTopicData input with
  | .ok d => (⟨some d, false, none⟩, some d)
  | .error e => (⟨s.data, false, some e⟩, none)

/-- The structured dataset shape of a validated resource (§3 of the
data model): years, insertion-ordered category map, optional markers. -/
structure Dataset where
  years : List Int
  categories : List (String × List Nat)
  markers : Option (List (String × JValue)) := none

/-- `CHART_CONFIG.colors`, the fixed 20-color palette. -/
def chartColors : List String :=
  ["#FF6B6B", "#4ECDC4", "#45B7D1", "#96CEB4", "#FFEAA7",
   "#DDA0DD", "#98D8C8", "#F7DC6F", "#FF9FF3", "#54A0FF",
   "#5F27CD", "#00D2D3", "#FF9F43", "#10AC84", "#EE5A24",
   "#0AD3C4", "#FFC312", "#C4E538", "#F79F1F", "#A3CB38"]

/-- `values.reduce((sum, val) => sum + val, 0)`. -/
def categoryTotal (values : List Nat) : Nat := values.foldl (· + ·) 0

/-- An element of the `categoryTotals` intermediate list of
`createChartTraces`: `{name, values, total}`. -/
structure CatTotal where
  name : String
  values : List Nat
  total : Nat

/-- `([name, values]) => ({name, values, total: values.reduce(...)})`. -/
def mkCatTotal (p : String × List Nat) : CatTotal :=
  { name := p.1, values := p.2, total := categoryTotal p.2 }

/-- The ordering realized by the comparator `(a, b) => b.total - a.total`:
`a` precedes-or-ties `b` iff `b.total ≤ a.total`. -/
def catLe (a b : CatTotal) : Prop := b.total ≤ a.total

instance : DecidableRel catLe := fun a b => inferInstanceAs (Decidable (b.total ≤ a.total))

instance : IsTotal CatTotal catLe := ⟨fun a b => Nat.le_total b.total a.total⟩

instance : IsTrans CatTotal catLe := ⟨fun _ _ _ h1 h2 => Nat.le_trans h2 h1⟩

/-- `Object.entries(data.categories).map(...).sort((a, b) => b.total - a.total)`.
`Array.prototype.sort` is stable, so the call denotes the stable
descending-by-total reordering of the entries; insertion sort with the
non-strict precedes-or-ties relation realizes exactly that. -/
def sortedCategoryTotals (data : Dataset) : List CatTotal :=
  List.insertionSort catLe (data.categories.map mkCatTotal)

/-- `CHART_CONFIG.colors[colorIndex % CHART_CONFIG.colors.length]`. -/
def chartColor (colorIndex : Nat) : String :=
  (chartColors.get? (colorIndex % chartColors.length)).getD ""

/-- `data.markers && data.markers[name] ? data.markers[name] : 'circle'`:
the symbol is the marker entry when the `markers` field is present and
the entry's value is truthy, else the default `'circle'`. -/
def markerSymbol (data : Dataset) (name : String) : JValue :=
  match data.markers with
  | some ms =>
    match ms.lookup name with
    | some v => if v.truthy then v else JValue.jstr "circle"
    | none => JValue.jstr "circle"
  | none => JValue.jstr "circle"

/-- `line: {width, color, shape}` of a trace. -/
structure TraceLine where
  width : Nat
  color : String
  shape : String

/-- `marker: {size, color, symbol, line: {width, color}}` of a trace. -/
structure TraceMarker where
  size : Nat
  color : String
  symbol : JValue
  lineWidth : Nat
  lineColor : String

/-- One Plotly trace object as pushed by `createChartTraces`. -/
structure Trace where
  x : List Int
  y : List Nat
  mode : String
  name : String
  type : String
  line : TraceLine
  marker : TraceMarker
  hovertemplate : String
  connectgaps : Bool

/-- The trace object pushed for the category at position `colorIndex`
of the sorted list (`app.js` 171-197). -/
def mkTrace (data : Dataset) (colorIndex : Nat) (c : CatTotal) : Trace :=
  { x := data.years
    y := c.values
    mode := "lines+markers"
    name := c.name
    type := "scatter"
    line := { width := 3, color := chartColor colorIndex, shape := "linear" }
    marker := { size := 10, color := chartColor colorIndex,
                symbol := markerSymbol data c.name,
                lineWidth := 2, lineColor := "#ffffff" }
    hovertemplate := "<b>%\x7bfullData.name\x7d</b><br>Year: %\x7bx\x7d<br>Topics: %\x7by\x7d<br><extra></extra>"
    connectgaps := false }

/-- `createChartTraces` (`app.js` 156-203): sort the categories by
descending total, then push one trace per category; `colorIndex` is
incremented once per pushed trace, so it equals the position in the
sorted order. -/
def createChartTraces (data : Dataset) : List Trace :=
  (sortedCategoryTotals data).enum.map (fun p => mkTrace data p.1 p.2)

/-- `getCategoryValue` (`app.js` 214-218): `0` for a missing category
(absent key is `undefined`, falsy; a present value is an array, truthy)
or a year not found by `indexOf`; otherwise the positional element,
which is `undefined` (`none`) past the end of the value array. -/
def getCategoryValue (data : Dataset) (categoryName : String) (year : Int) : Option Nat :=
  match data.categories.lookup categoryName with
  | none => some 0
  | some values =>
    match data.years.findIdx? (fun y => y == year) with
    | none => some 0
    | some yearIndex => values.get? yearIndex

/-- `font: {size, color, family}` of an annotation object. -/
structure AnnotFont where
  size : Nat
  color : String
  family : String

/-- One annotation object as pushed by `createDynamicAnnotations`. -/
structure Annot where
  x : Int
  y : Nat
  text : String
  showarrow : Bool
  arrowhead : Nat
  arrowsize : Nat
  arrowwidth : Nat
  arrowcolor : String
  ax : Int
  ay : Int
  font : AnnotFont
  bgcolor : String
  bordercolor : String
  borderwidth : Nat
  borderpad : Nat

/-- The annotation object pushed by each of the three blocks of
`createDynamicAnnotations`; the blocks differ only in `x`, `y`, `text`
and the arrow/border color. -/
def mkAnnot (x : Int) (y : Nat) (text : String) (color : String) : Annot :=
  { x := x, y := y, text := text
    showarrow := true, arrowhead := 2, arrowsize := 1, arrowwidth := 2
    arrowcolor := color, ax := 0, ay := -40
    font := { size := 11, color := "#1a202c",
              family := "-apple-system, BlinkMacSystemFont, sans-serif" }
    bgcolor := "rgba(255,255,255,0.9)", bordercolor := color
    borderwidth := 1, borderpad := 4 }

/-- One `if (value > 0) annotations.push(...)` block: the looked-up
value is `undefined` (`none`) or a number; the annotation is pushed only
when it is a number greater than zero. -/
def emitIfPositive (v : Option Nat) (x : Int) (text : String) (color : String) : List Annot :=
  match v with
  | some val => if 0 < val then [mkAnnot x val text color] else []
  | none => []

/-- `createDynamicAnnotations` (`app.js` 210-299): three fixed
(category, year) lookups in source order, each pushing its annotation
only when the looked-up value is greater than zero. -/
def createDynamicAnnotations (data : Dataset) : List Annot :=
  emitIfPositive (getCategoryValue data "Machine Learning & AI" 2024)
      2024 "LLMs<br>Emerge" "#FF6B6B"
    ++ emitIfPositive (getCategoryValue data "Social Sciences & Demographics" 2019)
      2019 "Census<br>Focus" "#ed8936"
    ++ emitIfPositive (getCategoryValue data "Pandemic & Public Health" 2020)
      2020 "COVID-19<br>Impact" "#48bb78"

/-- The fixed annotation trigger list (year, category, label, color)
in the source order of the three blocks. -/
def triggerList : List (Int × String × String × String) :=
  [(2024, "Machine Learning & AI", "LLMs<br>Emerge", "#FF6B6B"),
   (2019, "Social Sciences & Demographics", "Census<br>Focus", "#ed8936"),
   (2020, "Pandemic & Public Health", "COVID-19<br>Impact", "#48bb78")]

/-- Spec-side reading of one trigger (§3/§4.2 of the spec): look up the
value at that exact (category, year); the trigger produces a value only
when the dataset contains the exact category name, contains the exact
year, and the value at that position is strictly greater than zero. -/
def specEmit (d : Dataset) (cat : String) (year : Int) : Option Nat :=
  match d.categories.lookup cat with
  | none => none
  | some values =>
    match d.years.findIdx? (fun y => y == year) with
    | none => none
    | some i =>
      match values.get? i with
      | some v => if 0 < v then some v else none
      | none => none

/-- Spec-side annotation builder: filter the fixed trigger list,
preserving its order, keeping exactly the triggers whose lookup
succeeds with a positive value. -/
def specAnnotationList (d : Dataset) : List Annot :=
  triggerList.filterMap (fun t =>
    (specEmit d t.2.1 t.1).map (fun v => mkAnnot t.1 v t.2.2.1 t.2.2.2))

/-- Calls into the external rendering capability observable from the
resize path. -/
inductive RenderCall where
  | newPlot : List Trace → List Annot → RenderCall
  | plotsResize : RenderCall

/-- The slice of `AppState` the resize handler reads. -/
structure ChartAppState where
  data : Option Dataset
  chartInstance : Bool

/-- The body of the debounced resize listener registered by
`renderChart` (`app.js` 396-400): if a chart instance exists, call
`Plotly.Plots.resize('evolution-chart')`; nothing else. -/
def resizeHandler (s : ChartAppState) : List RenderCall :=
  if s.chartInstance then [RenderCall.plotsResize] else []

/-- Two successive calls of a builder on the same dataset. -/
def callTwice {α : Type} (f : Dataset → α) (d : Dataset) : α × α := (f d, f d)

/-- `createChartTraces` together with the dataset it leaves behind:
the function only reads `data`, it assigns no field of it. -/
def createChartTracesTracked (d : Dataset) : List Trace × Dataset :=
  (createChartTraces d, d)

/-- `createDynamicAnnotations` together with the dataset it leaves
behind: the function only reads `data`, it assigns no field of it. -/
def createDynamicAnnotationsTracked (d : Dataset) : List Annot × Dataset :=
  (createDynamicAnnotations d, d)

/-- `typeof`-style shape test: is the value a mapping (plain object)? -/
def JValue.isObj : JValue → Bool
  | .jobj _ => true
  | _ => false

/-! ### Concrete inputs used by the scenario parts of the theorems -/

/-- The `{A:10, B:30, C:30}` dataset of the sort-stability scenario:
B precedes C in insertion order and both tie at total 30. -/
def exABC : Dataset := { years := [2020], categories := [("A", [10]), ("B", [30]), ("C", [30])] }

/-- The 21-category dataset of the color-cycling scenario: one more
category than the palette has colors. -/
def ex21 : Dataset :=
  { years := [2020], categories := (List.range 21).map (fun i => (toString i, [21 - i])) }

/-- Dataset for the resize scenario. -/
def exC7 : Dataset := { years := [2020], categories := [("A", [1])] }

/-- Dataset containing a positive Machine Learning & AI value at 2024. -/
def exML : Dataset := { years := [2023, 2024], categories := [("Machine Learning & AI", [3, 9])] }

/-- Dataset whose Machine Learning & AI value at 2024 is zero. -/
def exZero : Dataset := { years := [2024], categories := [("Machine Learning & AI", [0])] }

/-- Dataset whose markers map sends category A to a falsy value. -/
def exM : Dataset := { years := [2020], categories := [("A", [1])],
                       markers := some [("A", JValue.jstr "")] }

/-- The single trace produced for `exM`. -/
def tExM : Trace := mkTrace exM 0 (mkCatTotal ("A", [1]))

/-- Input with three years but a category of only two values. -/
def badC3 : JValue := .jobj [("years", .jarr [.jnum 1, .jnum 2, .jnum 3]),
                            ("categories", .jobj [("A", .jarr [.jnum 1, .jnum 2])])]

/-- Input whose `categories` field has the wrong container shape (a number). -/
def badC5 : JValue := .jobj [("years", .jarr [.jnum 2020]), ("categories", .jnum 5)]

/-- Input missing the `years` field entirely. -/
def noYears : JValue := .jobj [("categories", .jobj [])]

/-- Input whose `years` sequence is not strictly increasing. -/
def badC8 : JValue := .jobj [("years", .jarr [.jnum 2, .jnum 1]),
                            ("categories", .jobj [("A", .jarr [.jnum 5, .jnum 5])])]

/-- A well-formed input (§8 end-to-end scenario). -/
def goodC8 : JValue := .jobj [("years", .jarr [.jnum 2016, .jnum 2017]),
                             ("categories", .jobj [("AI", .jarr [.jnum 2, .jnum 5])])]

/-- Application state before the first load: no data yet. -/
def s0 : LoaderState := ⟨none, true, none⟩

/-! ### Helper lemmas about the sorted category list -/

lemma enum_map_snd_fn {α β : Type} (l : List α) (g : α → β) :
    l.enum.map (fun p => g p.2) = l.map g := by
  have h : l.enum.map (fun p => g p.2) = (l.enum.map Prod.snd).map g := by
    rw [List.map_map]
    rfl
  rw [h]
  have h2 : l.enum.map Prod.snd = l := List.enumFrom_map_snd 0 l
  rw [h2]

lemma sortedCategoryTotals_perm (d : Dataset) :
    (sortedCategoryTotals d).Perm (d.categories.map mkCatTotal) :=
  List.perm_insertionSort catLe _

lemma sortedCategoryTotals_sorted (d : Dataset) :
    List.Sorted catLe (sortedCategoryTotals d) :=
  List.sorted_insertionSort catLe _

lemma sortedCategoryTotals_length (d : Dataset) :
    (sortedCategoryTotals d).length = d.categories.length := by
  unfold sortedCategoryTotals
  rw [List.length_insertionSort, List.length_map]

lemma createChartTraces_length (d : Dataset) :
    (createChartTraces d).length = d.categories.length := by
  unfold createChartTraces
  rw [List.length_map, List.enum_length, sortedCategoryTotals_length]

lemma createChartTraces_names (d : Dataset) :
    (createChartTraces d).map Trace.name = (sortedCategoryTotals d).map CatTotal.name := by
  unfold createChartTraces
  rw [List.map_map]
  exact enum_map_snd_fn (sortedCategoryTotals d) CatTotal.name

lemma filter_total_orderedInsert_of_ne (t : Nat) (a : CatTotal) (ha : ¬ a.total = t) :
    ∀ m : List CatTotal,
      (List.orderedInsert catLe a m).filter (fun c => c.total == t)
        = m.filter (fun c => c.total == t)
  | [] => by simp [ha]
  | b :: m => by
    simp only [List.orderedInsert]
    by_cases h : catLe a b
    · rw [if_pos h]
      simp [List.filter_cons, ha]
    · rw [if_neg h]
      rw [List.filter_cons, List.filter_cons, filter_total_orderedInsert_of_ne t a ha m]

lemma filter_total_orderedInsert_of_eq (t : Nat) (a : CatTotal) (ha : a.total = t) :
    ∀ m : List CatTotal, List.Sorted catLe m →
      (List.orderedInsert catLe a m).filter (fun c => c.total == t)
        = a :: m.filter (fun c => c.total == t)
  | [], _ => by simp [ha]
  | b :: m, hs => by
    simp only [List.orderedInsert]
    by_cases h : catLe a b
    · rw [if_pos h]
      simp [List.filter_cons, ha]
    · rw [if_neg h]
      have hb : ¬ b.total = t := by
        unfold catLe at h
        omega
      rw [List.filter_cons, List.filter_cons]
      rw [if_neg (by simp [hb]), if_neg (by simp [hb])]
      exact filter_total_orderedInsert_of_eq t a ha m hs.of_cons

lemma filter_total_insertionSort (t : Nat) :
    ∀ l : List CatTotal,
      (List.insertionSort catLe l).filter (fun c => c.total == t)
        = l.filter (fun c => c.total == t)
  | [] => rfl
  | a :: l => by
    simp only [List.insertionSort]
    by_cases ha : a.total = t
    · rw [filter_total_orderedInsert_of_eq t a ha _ (List.sorted_insertionSort catLe l),
        filter_total_insertionSort t l, List.filter_cons]
      simp [ha]
    · rw [filter_total_orderedInsert_of_ne t a ha, filter_total_insertionSort t l,
        List.filter_cons]
      simp [ha]

lemma sortedCategoryTotals_total_eq (d : Dataset) :
    (sortedCategoryTotals d).map CatTotal.total
      = (sortedCategoryTotals d).map (fun c => categoryTotal c.values) := by
  apply List.map_congr_left
  intro c hc
  have hmem : c ∈ d.categories.map mkCatTotal := (sortedCategoryTotals_perm d).mem_iff.mp hc
  obtain ⟨p, _, rfl⟩ := List.mem_map.mp hmem
  rfl

/-- C1: for every dataset, `createChartTraces` emits exactly one series
per category — the output names are a permutation of the category names
and the lengths agree — in the order of the sorted intermediate list,
which is sorted by descending total (the sum of the category's values)
and, restricted to any total-class, coincides with the original
insertion order (stable tie-break); in particular the `{A:10, B:30,
C:30}` dataset with B before C yields the order B, C, A. -/
theorem series_order_spec :
    (∀ d : Dataset,
      (createChartTraces d).length = d.categories.length ∧
      (createChartTraces d).map Trace.name = (sortedCategoryTotals d).map CatTotal.name ∧
      ((sortedCategoryTotals d).map CatTotal.name).Perm (d.categories.map Prod.fst) ∧
      List.Sorted catLe (sortedCategoryTotals d) ∧
      (sortedCategoryTotals d).map CatTotal.total
        = (sortedCategoryTotals d).map (fun c => categoryTotal c.values) ∧
      (∀ t : Nat, (sortedCategoryTotals d).filter (fun c => c.total == t)
          = (d.categories.map mkCatTotal).filter (fun c => c.total == t))) ∧
    (createChartTraces exABC).map Trace.name = ["B", "C", "A"] := by
  refine ⟨fun d => ⟨createChartTraces_length d, createChartTraces_names d, ?_,
    sortedCategoryTotals_sorted d, sortedCategoryTotals_total_eq d, fun t => ?_⟩, ?_⟩
  · have h := (sortedCategoryTotals_perm d).map CatTotal.name
    rw [List.map_map] at h
    exact h
  · unfold sortedCategoryTotals
    exact filter_total_insertionSort t _
  · decide

/-! ### Palette cycling -/

lemma createChartTraces_get (d : Dataset) (i : Nat) (hi : i < (createChartTraces d).length) :
    (createChartTraces d).get ⟨i, hi⟩
      = mkTrace d i ((sortedCategoryTotals d).get ⟨i, by
          rw [sortedCategoryTotals_length, ← createChartTraces_length d]
          exact hi⟩) := by
  have hi' : i < ((sortedCategoryTotals d).enum.map (fun p => mkTrace d p.1 p.2)).length := hi
  show ((sortedCategoryTotals d).enum.map (fun p => mkTrace d p.1 p.2)).get ⟨i, hi'⟩ = _
  rw [List.get_eq_getElem, List.getElem_map, List.getElem_enum]
  rfl

lemma chartColor_eq_getD (i : Nat) :
    chartColor i = chartColors.getD (i % chartColors.length) "" := by
  unfold chartColor
  rw [List.getD_eq_getElem?_getD, List.get?_eq_getElem?]

/-- C4: every trace's line and marker color is
`colors[position % colors.length]` for its position in sorted order;
when there are at most as many categories as palette colors, distinct
positions get distinct colors; and the 21-category dataset (palette
size 20 plus one) gives its first and twenty-first sorted categories
the same color. -/
theorem palette_cycling_spec :
    (∀ (d : Dataset) (i : Nat) (hi : i < (createChartTraces d).length),
      ((createChartTraces d).get ⟨i, hi⟩).line.color
          = chartColors.getD (i % chartColors.length) "" ∧
      ((createChartTraces d).get ⟨i, hi⟩).marker.color
          = chartColors.getD (i % chartColors.length) "") ∧
    (∀ d : Dataset, d.categories.length ≤ chartColors.length →
      ∀ (i j : Nat) (hi : i < (createChartTraces d).length)
        (hj : j < (createChartTraces d).length),
        ((createChartTraces d).get ⟨i, hi⟩).line.color
            = ((createChartTraces d).get ⟨j, hj⟩).line.color → i = j) ∧
    ex21.categories.length = chartColors.length + 1 ∧
    ((createChartTraces ex21).get? 0).map (fun t => t.line.color)
      = ((createChartTraces ex21).get? 20).map (fun t => t.line.color) := by
  have hcol : ∀ (d : Dataset) (i : Nat) (hi : i < (createChartTraces d).length),
      ((createChartTraces d).get ⟨i, hi⟩).line.color = chartColor i := by
    intro d i hi
    rw [createChartTraces_get]
    rfl
  refine ⟨fun d i hi => ?_, fun d hle i j hi hj hcolor => ?_, by decide, rfl⟩
  · rw [hcol d i hi]
    constructor
    · exact chartColor_eq_getD i
    · rw [createChartTraces_get]
      show chartColor i = _
      exact chartColor_eq_getD i
  · rw [hcol d i hi, hcol d j hj] at hcolor
    have hlen : (createChartTraces d).length = d.categories.length := createChartTraces_length d
    have hi2 : i < chartColors.length := by omega
    have hj2 : j < chartColors.length := by omega
    unfold chartColor at hcolor
    rw [Nat.mod_eq_of_lt hi2, Nat.mod_eq_of_lt hj2] at hcolor
    rw [List.get?_eq_get hi2, List.get?_eq_get hj2] at hcolor
    simp only [Option.getD_some] at hcolor
    have hnodup : chartColors.Nodup := by decide
    have := (hnodup.get_inj_iff).mp hcolor
    exact congrArg Fin.val this

/-- Witness for C4 at the concrete 21-category dataset. -/
theorem palette_cycling_spec_witness :
    0 < (createChartTraces ex21).length ∧
    ((createChartTraces ex21).get ⟨0, by decide⟩).line.color
      = chartColors.getD (0 % chartColors.length) "" :=
  ⟨by decide, (palette_cycling_spec.1 ex21 0 (by decide)).1⟩

/-! ### Purity, frame and resize behavior -/

/-- C6: the builders are pure — two calls on the same dataset return
identical output, and the output depends on nothing but the dataset. -/
theorem builder_purity (d : Dataset) :
    (callTwice createChartTraces d).1 = (callTwice createChartTraces d).2 ∧
    (callTwice createDynamicAnnotations d).1 = (callTwice createDynamicAnnotations d).2 :=
  ⟨rfl, rfl⟩

/-- C9: neither builder mutates the dataset — the dataset left behind
by a call is the dataset passed in. -/
theorem builder_frame (d : Dataset) :
    (createChartTracesTracked d).2 = d ∧ (createDynamicAnnotationsTracked d).2 = d :=
  ⟨rfl, rfl⟩

/-- C7 fails as stated: the debounced resize handler does not rebuild
the series and annotations and re-pass them; with a live chart instance
it emits exactly one `Plotly.Plots.resize` call. -/
theorem resize_rebuild_counterexample :
    resizeHandler ⟨some exC7, true⟩ = [RenderCall.plotsResize] ∧
    resizeHandler ⟨some exC7, true⟩
      ≠ [RenderCall.newPlot (createChartTraces exC7) (createDynamicAnnotations exC7)] := by
  constructor
  · rfl
  · intro h
    rw [resizeHandler] at h
    simp at h

/-- C7 (amended): after the debounce window, the resize handler never
issues a rebuild-and-rerender (`newPlot`) call; it invokes the external
rendering capability's resize operation exactly once when a chart
instance exists, and does nothing otherwise. -/
theorem resize_handler_spec (s : ChartAppState) :
    (∀ (ts : List Trace) (anns : List Annot), RenderCall.newPlot ts anns ∉ resizeHandler s) ∧
    (s.chartInstance = true → resizeHandler s = [RenderCall.plotsResize]) ∧
    (s.chartInstance = false → resizeHandler s = []) := by
  unfold resizeHandler
  refine ⟨fun ts anns hmem => ?_, fun h => by rw [h]; rfl, fun h => by rw [h]; rfl⟩
  by_cases h : s.chartInstance
  · rw [if_pos h] at hmem
    simp at hmem
  · rw [if_neg h] at hmem
    simp at hmem

/-- Witness for the amended C7 at a live chart state. -/
theorem resize_handler_spec_witness :
    (ChartAppState.mk (some exC7) true).chartInstance = true ∧
    resizeHandler ⟨some exC7, true⟩ = [RenderCall.plotsResize] :=
  ⟨rfl, (resize_handler_spec ⟨some exC7, true⟩).2.1 rfl⟩

/-! ### Annotation triggers -/

lemma specEmit_eq_bind (d : Dataset) (cat : String) (year : Int) :
    specEmit d cat year
      = (getCategoryValue d cat year).bind (fun v => if 0 < v then some v else none) := by
  unfold specEmit getCategoryValue
  cases h1 : d.categories.lookup cat with
  | none => simp
  | some values =>
    cases h2 : d.years.findIdx? (fun y => y == year) with
    | none => simp
    | some i =>
      cases h3 : values[i]? with
      | none => simp [List.get?_eq_getElem?, h3]
      | some v => simp [List.get?_eq_getElem?, h3]

lemma emitIfPositive_eq (v : Option Nat) (x : Int) (text color : String) :
    emitIfPositive v x text color
      = ((v.bind (fun n => if 0 < n then some n else none)).map
          (fun n => mkAnnot x n text color)).toList := by
  cases v with
  | none => rfl
  | some n =>
    by_cases h : 0 < n
    · simp [emitIfPositive, h]
    · simp [emitIfPositive, h]

lemma filterMap_cons_toList {α β : Type} (f : α → Option β) (a : α) (l : List α) :
    List.filterMap f (a :: l) = (f a).toList ++ List.filterMap f l := by
  cases h : f a with
  | none => simp [List.filterMap_cons, h]
  | some b => simp [List.filterMap_cons, h]

/-- C2: `createDynamicAnnotations` equals the filter of the fixed
trigger list — an annotation is emitted for a trigger iff the lookup of
the exact (category, year) pair succeeds with a value strictly greater
than zero, omissions are silent, and the fixed order is preserved; in
particular a positive Machine Learning & AI value at 2024 yields exactly
its annotation, and a zero value yields none. -/
theorem annotation_trigger_spec :
    (∀ d : Dataset, createDynamicAnnotations d = specAnnotationList d) ∧
    createDynamicAnnotations exML = [mkAnnot 2024 9 "LLMs<br>Emerge" "#FF6B6B"] ∧
    createDynamicAnnotations exZero = [] := by
  refine ⟨fun d => ?_, rfl, rfl⟩
  unfold createDynamicAnnotations specAnnotationList triggerList
  rw [filterMap_cons_toList, filterMap_cons_toList, filterMap_cons_toList, List.filterMap_nil]
  simp only [emitIfPositive_eq, specEmit_eq_bind, List.append_nil, List.append_assoc]

/-! ### Marker symbol selection -/

lemma mkTrace_symbol (d : Dataset) (i : Nat) (c : CatTotal) :
    (mkTrace d i c).marker.symbol = markerSymbol d c.name := rfl

lemma mkTrace_name (d : Dataset) (i : Nat) (c : CatTotal) :
    (mkTrace d i c).name = c.name := rfl

lemma markerSymbol_of_none (d : Dataset) (hm : d.markers = none) (name : String) :
    markerSymbol d name = JValue.jstr "circle" := by
  simp only [markerSymbol, hm]

lemma markerSymbol_of_no_key (d : Dataset) (ms : List (String × JValue))
    (hm : d.markers = some ms) (name : String) (hl : ms.lookup name = none) :
    markerSymbol d name = JValue.jstr "circle" := by
  simp only [markerSymbol, hm, hl]

lemma markerSymbol_of_falsy (d : Dataset) (ms : List (String × JValue)) (v : JValue)
    (hm : d.markers = some ms) (name : String) (hl : ms.lookup name = some v)
    (htr : v.truthy = false) : markerSymbol d name = JValue.jstr "circle" := by
  simp only [markerSymbol, hm, hl, htr, Bool.false_eq_true, if_false]

lemma markerSymbol_of_truthy (d : Dataset) (ms : List (String × JValue)) (v : JValue)
    (hm : d.markers = some ms) (name : String) (hl : ms.lookup name = some v)
    (htr : v.truthy = true) : markerSymbol d name = v := by
  simp only [markerSymbol, hm, hl, htr, if_true]

/-- C10: a trace's marker symbol is decided by the truthiness of the
marker value, not by key presence — with no markers field, an absent
key, or a falsy value (such as the empty string) the symbol is the
default `'circle'`; only a truthy marker value is used as the symbol. -/
theorem marker_symbol_spec (d : Dataset) (t : Trace) (ht : t ∈ createChartTraces d) :
    (d.markers = none → t.marker.symbol = JValue.jstr "circle") ∧
    (∀ ms, d.markers = some ms → ms.lookup t.name = none →
        t.marker.symbol = JValue.jstr "circle") ∧
    (∀ ms v, d.markers = some ms → ms.lookup t.name = some v → v.truthy = false →
        t.marker.symbol = JValue.jstr "circle") ∧
    (∀ ms v, d.markers = some ms → ms.lookup t.name = some v → v.truthy = true →
        t.marker.symbol = v) := by
  unfold createChartTraces at ht
  obtain ⟨p, hp, rfl⟩ := List.mem_map.mp ht
  refine ⟨fun hm => ?_, fun ms hm hl => ?_, fun ms v hm hl htr => ?_,
    fun ms v hm hl htr => ?_⟩
  · rw [mkTrace_symbol]
    exact markerSymbol_of_none d hm _
  · rw [mkTrace_name] at hl
    rw [mkTrace_symbol]
    exact markerSymbol_of_no_key d ms hm _ hl
  · rw [mkTrace_name] at hl
    rw [mkTrace_symbol]
    exact markerSymbol_of_falsy d ms v hm _ hl htr
  · rw [mkTrace_name] at hl
    rw [mkTrace_symbol]
    exact markerSymbol_of_truthy d ms v hm _ hl htr

/-- Witness for C10: the falsy (empty string) marker value for category
A yields the default symbol. -/
theorem marker_symbol_spec_witness :
    tExM ∈ createChartTraces exM ∧ tExM.marker.symbol = JValue.jstr "circle" :=
  ⟨List.mem_singleton_self tExM,
   (marker_symbol_spec exM tExM (List.mem_singleton_self tExM)).2.2.1
     [("A", JValue.jstr "")] (JValue.jstr "") rfl rfl rfl⟩

/-! ### Loader validation -/

/-- C3: whenever the schema check passes but some enumerated category
value is not an array or has a length different from `years.length`,
the loader fails with a `ConsistencyError` naming an offending
category, the stored dataset is left unchanged and no dataset is
returned. -/
theorem consistency_error_spec (data : JValue) (s : LoaderState)
    (hyears : truthyField data "years" = true)
    (hcats : truthyField data "categories" = true)
    (harr : JValue.isArray ((data.getField "years").getD JValue.jnull) = true)
    (hbad : ∃ p ∈ jsEntries ((data.getField "categories").getD JValue.jnull),
        categoryBad (arrayLength ((data.getField "years").getD JValue.jnull)) p.2 = true) :
    (∃ c, loadTopicData data = Except.error (LoadError.consistencyError c) ∧
      ∃ v, (c, v) ∈ jsEntries ((data.getField "categories").getD JValue.jnull) ∧
        categoryBad (arrayLength ((data.getField "years").getD JValue.jnull)) v = true) ∧
    (runLoad data s).1.data = s.data ∧ (runLoad data s).2 = none := by
  have hfind : ((jsEntries ((data.getField "categories").getD JValue.jnull)).find?
      (fun p => categoryBad (arrayLength ((data.getField "years").getD JValue.jnull)) p.2)).isSome := by
    rw [List.find?_isSome]
    obtain ⟨p, hmem, hp⟩ := hbad
    exact ⟨p, hmem, hp⟩
  obtain ⟨p0, hp0⟩ := Option.isSome_iff_exists.mp hfind
  have hload : loadTopicData data = Except.error (LoadError.consistencyError p0.1) := by
    unfold loadTopicData
    simp only [hyears, hcats, harr, Bool.not_true, Bool.or_self, Bool.or_false, if_false,
      Bool.false_eq_true, hp0]
  have hps := List.find?_some hp0
  have hmem0 := List.mem_of_find?_eq_some hp0
  refine ⟨⟨p0.1, hload, p0.2, by simpa using hmem0, hps⟩, ?_, ?_⟩
  · unfold runLoad
    rw [hload]
  · unfold runLoad
    rw [hload]

/-- Witness for C3 at the length-3-years, length-2-category input. -/
theorem consistency_error_spec_witness :
    truthyField badC3 "years" = true ∧
    (∃ c, loadTopicData badC3 = Except.error (LoadError.consistencyError c) ∧
      ∃ v, (c, v) ∈ jsEntries ((badC3.getField "categories").getD JValue.jnull) ∧
        categoryBad (arrayLength ((badC3.getField "years").getD JValue.jnull)) v = true) ∧
    (runLoad badC3 s0).1.data = none ∧ (runLoad badC3 s0).2 = none := by
  have h := consistency_error_spec badC3 s0 rfl rfl rfl
    ⟨("A", JValue.jarr [JValue.jnum 1, JValue.jnum 2]), List.mem_singleton_self _, rfl⟩
  exact ⟨rfl, h.1, h.2.1, h.2.2⟩

/-- C5 fails as stated: an input whose `categories` field is a number —
not a mapping — passes the schema check (only truthiness of
`categories` and `Array.isArray(years)` are tested), so `load()`
succeeds instead of failing with a `SchemaError`. -/
theorem schema_error_counterexample :
    badC5.getField "categories" = some (JValue.jnum 5) ∧
    JValue.isObj (JValue.jnum 5) = false ∧
    loadTopicData badC5 = Except.ok badC5 :=
  ⟨rfl, rfl, rfl⟩

/-- C5 (amended): the loader fails with `SchemaError` exactly when the
`years` field is absent or falsy, the `categories` field is absent or
falsy, or the `years` value is not an array; the container shape of a
truthy `categories` is not checked. On any validation failure the
stored dataset is unchanged and no dataset is returned. -/
theorem schema_error_spec (data : JValue) (s : LoaderState) :
    (loadTopicData data = Except.error LoadError.schemaError ↔
      (truthyField data "years" = false ∨ truthyField data "categories" = false ∨
        JValue.isArray ((data.getField "years").getD JValue.jnull) = false)) ∧
    (∀ e, loadTopicData data = Except.error e →
      (runLoad data s).1.data = s.data ∧ (runLoad data s).2 = none) := by
  have hcond : (!(truthyField data "years") || !(truthyField data "categories")
      || !(JValue.isArray ((data.getField "years").getD JValue.jnull))) = true
      ↔ (truthyField data "years" = false ∨ truthyField data "categories" = false ∨
        JValue.isArray ((data.getField "years").getD JValue.jnull) = false) := by
    simp [Bool.or_eq_true, or_assoc]
  constructor
  · unfold loadTopicData
    by_cases hc : (!(truthyField data "years") || !(truthyField data "categories")
        || !(JValue.isArray ((data.getField "years").getD JValue.jnull))) = true
    · rw [if_pos hc]
      exact iff_of_true rfl (hcond.mp hc)
    · rw [if_neg hc]
      refine iff_of_false ?_ ?_
      · cases hfind : (jsEntries ((data.getField "categories").getD JValue.jnull)).find?
            (fun p => categoryBad (arrayLength ((data.getField "years").getD JValue.jnull)) p.2) with
        | some p =>
          simp only [hfind]
          intro h
          exact LoadError.noConfusion (Except.error.inj h)
        | none =>
          simp only [hfind]
          intro h
          exact Except.noConfusion h
      · rw [← hcond]
        exact hc
  · intro e he
    unfold runLoad
    rw [he]
    exact ⟨rfl, rfl⟩

/-- Witness for the amended C5 at an input with no `years` field. -/
theorem schema_error_spec_witness :
    loadTopicData noYears = Except.error LoadError.schemaError ∧
    (runLoad noYears s0).1.data = none ∧ (runLoad noYears s0).2 = none := by
  have h1 := (schema_error_spec noYears s0).1.mpr (Or.inl rfl)
  have h2 := (schema_error_spec noYears s0).2 LoadError.schemaError h1
  exact ⟨h1, h2.1, h2.2⟩

/-- C8 fails as stated: `load()` accepts this input whose `years`
sequence `[2, 1]` is not strictly increasing, so a successful load does
not establish the §3 dataset invariants. -/
theorem dataset_invariant_counterexample :
    loadTopicData badC8 = Except.ok badC8 ∧
    badC8.getField "years" = some (JValue.jarr [JValue.jnum 2, JValue.jnum 1]) ∧
    ¬ (([2, 1] : List Int).Pairwise (· < ·)) :=
  ⟨rfl, rfl, by decide⟩

/-- C8 (amended): a successful `load()` returns the input itself and
guarantees exactly the checked properties — `years` present, truthy and
an array, `categories` present and truthy, and every enumerated
category value an array of length `years.length`; nothing more. -/
theorem load_success_spec (data d : JValue) (h : loadTopicData data = Except.ok d) :
    d = data ∧
    truthyField data "years" = true ∧
    truthyField data "categories" = true ∧
    JValue.isArray ((data.getField "years").getD JValue.jnull) = true ∧
    (∀ p ∈ jsEntries ((data.getField "categories").getD JValue.jnull),
      ∃ xs, p.2 = JValue.jarr xs
        ∧ xs.length = arrayLength ((data.getField "years").getD JValue.jnull)) := by
  unfold loadTopicData at h
  by_cases hc : (!(truthyField data "years") || !(truthyField data "categories")
      || !(JValue.isArray ((data.getField "years").getD JValue.jnull))) = true
  · rw [if_pos hc] at h
    exact absurd h (by simp)
  · rw [if_neg hc] at h
    have hb : truthyField data "years" = true ∧ truthyField data "categories" = true ∧
        JValue.isArray ((data.getField "years").getD JValue.jnull) = true := by
      simpa [Bool.or_eq_true, and_assoc] using hc
    cases hfind : (jsEntries ((data.getField "categories").getD JValue.jnull)).find?
        (fun p => categoryBad (arrayLength ((data.getField "years").getD JValue.jnull)) p.2) with
    | some p =>
      simp only [hfind] at h
      exact absurd h (by simp)
    | none =>
      simp only [hfind] at h
      refine ⟨(Except.ok.inj h).symm, hb.1, hb.2.1, hb.2.2, fun p hp => ?_⟩
      have hgood := List.find?_eq_none.mp hfind p hp
      cases hv : p.2 with
      | jarr xs =>
        rw [hv] at hgood
        simp only [categoryBad] at hgood
        refine ⟨xs, rfl, ?_⟩
        simpa [bne_iff_ne] using hgood
      | jnull => rw [hv] at hgood; simp [categoryBad] at hgood
      | jbool b => rw [hv] at hgood; simp [categoryBad] at hgood
      | jnum n => rw [hv] at hgood; simp [categoryBad] at hgood
      | jstr str => rw [hv] at hgood; simp [categoryBad] at hgood
      | jobj fields => rw [hv] at hgood; simp [categoryBad] at hgood

/-- Witness for the amended C8 at a well-formed input. -/
theorem load_success_spec_witness :
    loadTopicData goodC8 = Except.ok goodC8 ∧
    truthyField goodC8 "years" = true ∧
    (∃ xs, JValue.jarr [JValue.jnum 2, JValue.jnum 5] = JValue.jarr xs ∧
      xs.length = arrayLength ((goodC8.getField "years").getD JValue.jnull)) := by
  have h := load_success_spec goodC8 goodC8 rfl
  exact ⟨rfl, h.2.1,
    h.2.2.2.2 ("AI", JValue.jarr [JValue.jnum 2, JValue.jnum 5]) (List.mem_singleton_self _)⟩

end TopicEvolution
